import Mathlib

/-!
Verification development for the `pcl_aggregator_core` stream-aggregation
engine: stamped point clouds, per-sensor stream managers and the
cross-stream aggregation manager.

The repository ships the two `StreamManager` header declarations
(`src/include/pcl_aggregator_core/managers/StreamManager.h` and the
template-generic variant) together with the build script; the
implementation files named there (`src/managers/StreamManager.cpp`,
`src/managers/PointCloudsManager.cpp`, `src/entities/StampedPointCloud.cpp`)
are not part of the sources.  Definitions of behaviour that lives in those
missing files are therefore modelled from the specification and are marked
`Modelled from the spec:` in their doc comments; declarations, member lists
and the ICP configuration constants are embedded from the headers
themselves.

Time stamps, ages and coordinates are rationals (the C++ code uses
`double`); machine-width concerns do not arise in any claim.  ICP is an
external numerical routine (PCL's `IterativeClosestPoint`), so it is
embedded as an oracle parameter returning `none` on non-convergence and
`some tf` with the refinement transform on convergence.
-/

/-- A labeled colored 3-D point, the analogue of `pcl::PointXYZRGBL`. -/
structure Point where
  x : ℚ
  y : ℚ
  z : ℚ
  r : Nat
  g : Nat
  b : Nat
  label : Nat
deriving DecidableEq, Repr

/-- A raw ingestion point record: position and color, no label yet.
The core assigns the label at ingestion time. -/
structure RawPoint where
  x : ℚ
  y : ℚ
  z : ℚ
  r : Nat
  g : Nat
  b : Nat
deriving DecidableEq, Repr

/-- An affine transform (3×3 linear part plus translation), the shallow
embedding of `Eigen::Affine3d` / a 4×4 homogeneous rigid transform. -/
structure Transform where
  m00 : ℚ
  m01 : ℚ
  m02 : ℚ
  m10 : ℚ
  m11 : ℚ
  m12 : ℚ
  m20 : ℚ
  m21 : ℚ
  m22 : ℚ
  t0 : ℚ
  t1 : ℚ
  t2 : ℚ
deriving DecidableEq, Repr

/-- Apply a transform to a single point; color and label are untouched. -/
def Transform.applyPoint (tf : Transform) (p : Point) : Point :=
  { p with
    x := tf.m00 * p.x + tf.m01 * p.y + tf.m02 * p.z + tf.t0
    y := tf.m10 * p.x + tf.m11 * p.y + tf.m12 * p.z + tf.t1
    z := tf.m20 * p.x + tf.m21 * p.y + tf.m22 * p.z + tf.t2 }

/-- The identity transform. -/
def Transform.identity : Transform :=
  { m00 := 1, m01 := 0, m02 := 0
    m10 := 0, m11 := 1, m12 := 0
    m20 := 0, m21 := 0, m22 := 1
    t0 := 0, t1 := 0, t2 := 0 }

/-- Error taxonomy of the spec: caller-misuse and contract-violation errors. -/
inductive AggError where
  | invalidStateError
  | notFoundError
deriving DecidableEq, Repr

/-- A point cloud tagged with a capture timestamp, an integer label and the
`transformed` flag, the analogue of `entities::StampedPointCloud`. -/
structure StampedPointCloud where
  label : Nat
  timestamp : ℚ
  points : List Point
  transformed : Bool
deriving DecidableEq, Repr

/-- Modelled from the spec: `StampedPointCloud::applyTransform` (its
implementation file `src/entities/StampedPointCloud.cpp` is absent from the
sources).  Applies the rigid transform to every point in place; fails with
`InvalidStateError` when `transformed` is already true; sets
`transformed := true` on success. -/
def StampedPointCloud.applyTransform (tf : Transform) (spc : StampedPointCloud) :
    Except AggError StampedPointCloud :=
  if spc.transformed then
    .error .invalidStateError
  else
    .ok { spc with points := spc.points.map tf.applyPoint, transformed := true }

/-- Modelled from the spec: `StampedPointCloud` merge (implementation file
absent).  Unions the other cloud's points into self by concatenation; no
deduplication. -/
def StampedPointCloud.merge (a other : StampedPointCloud) : StampedPointCloud :=
  { a with points := a.points ++ other.points }

/-- Modelled from the spec: the age predicate, `now - timestamp > maxAge`. -/
def StampedPointCloud.olderThan (spc : StampedPointCloud) (maxAge now : ℚ) : Bool :=
  decide (now - spc.timestamp > maxAge)

/-- The ordering comparator used by the `clouds` set
(`entities::CompareStampedPointCloudPointers`): ascending by
`(timestamp, label)`, label breaking timestamp ties. -/
def spcLt (a c : StampedPointCloud) : Bool :=
  if a.timestamp < c.timestamp then true
  else if c.timestamp < a.timestamp then false
  else decide (a.label < c.label)

example : (Transform.identity.applyPoint ⟨1, 2, 3, 0, 0, 0, 7⟩) = ⟨1, 2, 3, 0, 0, 0, 7⟩ := by
  simp [Transform.applyPoint, Transform.identity]

example :
    StampedPointCloud.applyTransform Transform.identity ⟨5, 0, [], true⟩ =
      .error .invalidStateError := rfl

example : spcLt ⟨2, 1, [], false⟩ ⟨3, 1, [], false⟩ = true := by decide

/-- The ICP oracle: the embedding of PCL's iterative-closest-point routine,
an external numerical procedure.  Given the new cloud's points and the
accumulated cloud's points it yields `some tf` (the 4×4 refinement
transform) on convergence and `none` on non-convergence. -/
def IcpOracle : Type :=
  List Point → List Point → Option Transform

/-- The per-sensor stream manager state (`managers::StreamManager`), with
the source's field names: `cloud` is the merged accumulated cloud, `clouds`
the tracked set ordered by `(timestamp, label)`, `cloudsNotTransformed` the
FIFO queue of clouds awaiting the sensor transform.  `sensorTransform`
combines the `sensorTransform` value and the `sensorTransformSet` flag as
an option; `pointAgingCallback` is an optional opaque callback handle
(`std::function`, null by default); `nextLabel` models fresh label
assignment at ingestion. -/
structure StreamManager where
  topicName : String
  maxAge : ℚ
  cloud : List Point
  sensorTransform : Option Transform
  clouds : List StampedPointCloud
  cloudsNotTransformed : List StampedPointCloud
  pointAgingCallback : Option Nat
  nextLabel : Nat
deriving DecidableEq, Repr

/-- The constructor `StreamManager(topicName, maxAge)`: empty accumulated
cloud, no tracked clouds, empty pending queue, transform unset, aging
callback null. -/
def initStream (topicName : String) (maxAge : ℚ) : StreamManager :=
  { topicName := topicName
    maxAge := maxAge
    cloud := []
    sensorTransform := none
    clouds := []
    cloudsNotTransformed := []
    pointAgingCallback := none
    nextLabel := 0 }

/-- Ordered insertion into the tracked `clouds` set, the embedding of
`std::set::insert` under `CompareStampedPointCloudPointers`: insert before
the first element not below the new one; when an equivalent element
(neither compares below the other) is already present, the insertion is a
no-op, as for `std::set`. -/
def insertTracked (c : StampedPointCloud) : List StampedPointCloud → List StampedPointCloud
  | [] => [c]
  | x :: xs =>
      if spcLt c x then c :: x :: xs
      else if spcLt x c then x :: insertTracked c xs
      else x :: xs

/-- Stamp a raw cloud at ingestion: assign the fresh label and the current
timestamp; every point carries the cloud's label; not yet transformed. -/
def mkStampedCloud (label : Nat) (now : ℚ) (raw : List RawPoint) : StampedPointCloud :=
  { label := label
    timestamp := now
    points := raw.map (fun rp => ⟨rp.x, rp.y, rp.z, rp.r, rp.g, rp.b, label⟩)
    transformed := false }

/-- Modelled from the spec: the merge (registration) algorithm of
`StreamManager` (its implementation file `src/managers/StreamManager.cpp`
is absent from the sources).  The first cloud merged into an empty
accumulated cloud seeds it directly.  Otherwise ICP runs between the new
cloud and the accumulated cloud; on convergence the refinement transform is
applied to the new cloud before the union, on non-convergence the cloud is
merged with the identity refinement instead of being discarded.  The
(possibly refined) points are unioned into `cloud` and the stamped cloud is
inserted into the tracked set. -/
def registerCloud (icp : IcpOracle) (st : StreamManager) (spc : StampedPointCloud) :
    StreamManager :=
  if st.cloud.isEmpty then
    { st with cloud := spc.points, clouds := insertTracked spc st.clouds }
  else
    match icp spc.points st.cloud with
    | some tf =>
        let refined := { spc with points := spc.points.map tf.applyPoint }
        { st with cloud := st.cloud ++ refined.points
                  clouds := insertTracked refined st.clouds }
    | none =>
        { st with cloud := st.cloud ++ spc.points
                  clouds := insertTracked spc st.clouds }

/-- Modelled from the spec: the known-transform ingestion path shared by
`addCloud` and the pending-queue drain of `setSensorTransform`
(implementation file absent).  Applies the sensor transform to the stamped
cloud — guarded by the `transformed` flag, so an already-transformed cloud
is never re-transformed — and registers it into the accumulated cloud. -/
def ingestTransformed (icp : IcpOracle) (tf : Transform) (st : StreamManager)
    (spc : StampedPointCloud) : StreamManager :=
  match spc.applyTransform tf with
  | .ok transformedCloud => registerCloud icp st transformedCloud
  | .error _ => st

/-- Modelled from the spec: `StreamManager::addCloud` (implementation file
absent).  An empty raw input is a no-op.  Otherwise the raw cloud is
wrapped into a stamped cloud with a freshly assigned label and the current
timestamp; if the sensor transform is set it is applied and the cloud is
registered into the accumulated cloud, else the cloud is appended to the
pending queue. -/
def addCloud (icp : IcpOracle) (now : ℚ) (raw : List RawPoint) (st : StreamManager) :
    StreamManager :=
  if raw.isEmpty then st
  else
    let spc := mkStampedCloud st.nextLabel now raw
    let st1 := { st with nextLabel := st.nextLabel + 1 }
    match st1.sensorTransform with
    | some tf => ingestTransformed icp tf st1 spc
    | none => { st1 with cloudsNotTransformed := st1.cloudsNotTransformed ++ [spc] }

/-- Modelled from the spec: `StreamManager::setSensorTransform`
(implementation file absent).  Stores the transform, then drains the
pending queue in FIFO order, applying the transform to each pending cloud
and merging it exactly as the known-transform path of `addCloud` does. -/
def setSensorTransform (icp : IcpOracle) (tf : Transform) (st : StreamManager) :
    StreamManager :=
  List.foldl (ingestTransformed icp tf)
    { st with sensorTransform := some tf, cloudsNotTransformed := [] }
    st.cloudsNotTransformed

/-- `StreamManager::getCloud`: the current accumulated cloud. -/
def getCloud (st : StreamManager) : List Point :=
  st.cloud

/-- `StreamManager::getMaxAge`. -/
def getMaxAge (st : StreamManager) : ℚ :=
  st.maxAge

/-- `StreamManager::getPointAgingCallback`. -/
def getPointAgingCallback (st : StreamManager) : Option Nat :=
  st.pointAgingCallback

/-- `StreamManager::setPointAgingCallback`: at most one listener, last
write wins. -/
def setPointAgingCallback (func : Nat) (st : StreamManager) : StreamManager :=
  { st with pointAgingCallback := some func }

/-- Modelled from the spec: one pass of the max-age watching routine
(`maxAgeWatchingRoutine`; implementation file absent).  Every tracked cloud
with `now - timestamp > maxAge` is evicted: exactly the points bearing its
label are removed from the accumulated cloud, its entry is removed from
the tracked set, and the registered aging callback is invoked with its
label — the returned list is the sequence of labels the callback was
invoked with, empty when no callback is registered. -/
def maxAgeWatchingRoutine (now : ℚ) (st : StreamManager) : StreamManager × List Nat :=
  let agedLabels := (st.clouds.filter (fun c => c.olderThan st.maxAge now)).map
    (fun c => c.label)
  ({ st with
      clouds := st.clouds.filter (fun c => !(c.olderThan st.maxAge now))
      cloud := st.cloud.filter (fun p => !(agedLabels.contains p.label)) },
   match st.pointAgingCallback with
   | some _ => agedLabels
   | none => [])

/-- The aggregation manager (`managers::PointCloudsManager`; its
implementation file `src/managers/PointCloudsManager.cpp` is absent from
the sources): a registry of stream managers keyed by source identifier,
keys unique, plus the max-age configuration used for lazily created
streams. -/
structure PointCloudsManager where
  maxAge : ℚ
  streamManagers : List (String × StreamManager)
deriving DecidableEq, Repr

/-- The states of a stream manager reachable from construction through its
public operations. -/
inductive Reachable : StreamManager → Prop where
  | init (topicName : String) (maxAge : ℚ) : Reachable (initStream topicName maxAge)
  | add (icp : IcpOracle) (now : ℚ) (raw : List RawPoint) {st : StreamManager} :
      Reachable st → Reachable (addCloud icp now raw st)
  | setTf (icp : IcpOracle) (tf : Transform) {st : StreamManager} :
      Reachable st → Reachable (setSensorTransform icp tf st)
  | watch (now : ℚ) {st : StreamManager} :
      Reachable st → Reachable (maxAgeWatchingRoutine now st).1
  | setCb (func : Nat) {st : StreamManager} :
      Reachable st → Reachable (setPointAgingCallback func st)

/-- Modelled from the spec: `PointCloudsManager::addCloud` (implementation
file absent).  Lazily creates a stream manager for an unseen source
identifier — registering this manager's removal handler as its aging
callback — then forwards to that stream manager's `addCloud`. -/
def mgrAddCloud (icp : IcpOracle) (now : ℚ) (sourceId : String) (raw : List RawPoint)
    (mgr : PointCloudsManager) : PointCloudsManager :=
  if mgr.streamManagers.any (fun p => p.1 == sourceId) then
    let updated := mgr.streamManagers.map
      (fun p => if p.1 == sourceId then (p.1, addCloud icp now raw p.2) else p)
    { mgr with streamManagers := updated }
  else
    let fresh := addCloud icp now raw
      (setPointAgingCallback 0 (initStream sourceId mgr.maxAge))
    { mgr with streamManagers := mgr.streamManagers ++ [(sourceId, fresh)] }

/-- Modelled from the spec: `PointCloudsManager::setSensorTransform`
(implementation file absent).  Forwards to the named stream manager; fails
with `NotFoundError` when the source identifier is unregistered, creating
no stream and leaving every stream untouched. -/
def mgrSetSensorTransform (icp : IcpOracle) (sourceId : String) (tf : Transform)
    (mgr : PointCloudsManager) : Except AggError PointCloudsManager :=
  if mgr.streamManagers.any (fun p => p.1 == sourceId) then
    let updated := mgr.streamManagers.map
      (fun p => if p.1 == sourceId then (p.1, setSensorTransform icp tf p.2) else p)
    .ok { mgr with streamManagers := updated }
  else
    .error .notFoundError

/-- Modelled from the spec: `PointCloudsManager::getMergedCloud`
(implementation file absent).  Computes the union of every registered
stream manager's `getCloud` result at call time; recomputed on demand, not
cached. -/
def getMergedCloud (mgr : PointCloudsManager) : List Point :=
  (mgr.streamManagers.map (fun p => getCloud p.2)).flatten

/-- The member declarations of the two `StreamManager` header variants,
embedded from `src/include/pcl_aggregator_core/managers/StreamManager.h`
(fixed point type `pcl::PointXYZRGBL`) and from the template-generic
variant header. -/
inductive StreamManagerMember where
  | topicNameField
  | cloudField
  | sensorTransformField
  | sensorTransformSetField
  | cloudsField
  | cloudsNotTransformedField
  | maxAgeField
  | setMutexField
  | cloudMutexField
  | sensorTransformMutexField
  | maxAgeWatcherThreadField
  | keepAgeWatcherAliveField
  | pointAgingCallbackField
  | computeTransformMethod
  | removePointCloudMethod
  | ctor
  | dtor
  | eqBySourceId
  | addCloudMethod
  | getCloudMethod
  | setSensorTransformMethod
  | getMaxAgeMethod
  | getPointAgingCallbackMethod
  | setPointAgingCallbackMethod
  | applyTransformRoutineFriend
  | pointCloudAutoRemoveRoutineFriend
  | icpTransformPointCloudRoutineFriend
  | maxAgeWatchingRoutineFriend
deriving DecidableEq, Repr

/-- The declarations of the fixed-type `StreamManager` header
(`src/include/pcl_aggregator_core/managers/StreamManager.h`), in source
order. -/
def fixedVariantMembers : List StreamManagerMember :=
  [.topicNameField, .cloudField, .sensorTransformField, .sensorTransformSetField,
   .cloudsField, .cloudsNotTransformedField, .maxAgeField,
   .setMutexField, .cloudMutexField, .sensorTransformMutexField,
   .maxAgeWatcherThreadField, .keepAgeWatcherAliveField, .pointAgingCallbackField,
   .computeTransformMethod, .removePointCloudMethod,
   .ctor, .dtor, .eqBySourceId,
   .addCloudMethod, .getCloudMethod, .setSensorTransformMethod, .getMaxAgeMethod,
   .getPointAgingCallbackMethod, .setPointAgingCallbackMethod,
   .applyTransformRoutineFriend, .pointCloudAutoRemoveRoutineFriend,
   .icpTransformPointCloudRoutineFriend, .maxAgeWatchingRoutineFriend]

/-- The declarations of the template-generic `StreamManager` header
variant, in source order. -/
def genericVariantMembers : List StreamManagerMember :=
  [.topicNameField, .cloudField, .sensorTransformField, .sensorTransformSetField,
   .cloudsField, .cloudsNotTransformedField, .maxAgeField,
   .setMutexField, .cloudMutexField, .sensorTransformMutexField,
   .computeTransformMethod, .removePointCloudMethod,
   .ctor, .dtor, .eqBySourceId,
   .addCloudMethod, .getCloudMethod, .setSensorTransformMethod, .getMaxAgeMethod,
   .applyTransformRoutineFriend, .pointCloudAutoRemoveRoutineFriend,
   .icpTransformPointCloudRoutineFriend]

/-- The aging-callback and age-watcher machinery that only the fixed-type
variant declares. -/
def callbackAndWatcherMembers : List StreamManagerMember :=
  [.maxAgeWatcherThreadField, .keepAgeWatcherAliveField, .pointAgingCallbackField,
   .getPointAgingCallbackMethod, .setPointAgingCallbackMethod,
   .maxAgeWatchingRoutineFriend]

/-- The shared public operations named by the refinement claim. -/
def sharedPublicOps : List StreamManagerMember :=
  [.addCloudMethod, .getCloudMethod, .setSensorTransformMethod, .getMaxAgeMethod]

/-- `STREAM_ICP_MAX_CORRESPONDENCE_DISTANCE` of the fixed-type header. -/
def fixedIcpMaxCorrespondenceDistance : Nat := 1

/-- `STREAM_ICP_MAX_ITERATIONS` of the fixed-type header. -/
def fixedIcpMaxIterations : Nat := 10

/-- `STREAM_ICP_MAX_CORRESPONDENCE_DISTANCE` of the template-generic header. -/
def genericIcpMaxCorrespondenceDistance : Nat := 1

/-- `STREAM_ICP_MAX_ITERATIONS` of the template-generic header. -/
def genericIcpMaxIterations : Nat := 10

/-- An ICP oracle that never converges. -/
def icpNever : IcpOracle := fun _ _ => none

/-- An ICP oracle that always converges, with a constant refinement. -/
def icpConst (tf : Transform) : IcpOracle := fun _ _ => some tf

/-- A sample point fixture. -/
def samplePoint : Point := ⟨1, 2, 3, 0, 0, 0, 4⟩

/-- A sample untransformed stamped cloud fixture with empty point set. -/
def sampleCloudRaw : StampedPointCloud := ⟨4, 0, [], false⟩

/-- The cloud `sampleCloudRaw` after a successful transform application. -/
def sampleCloudTf : StampedPointCloud := ⟨4, 0, [], true⟩

/-- A sample tracked cloud fixture: label 4, captured at timestamp 0,
already transformed. -/
def sampleTrackedCloud : StampedPointCloud := ⟨4, 0, [samplePoint], true⟩

/-- A sample stream-manager fixture with a nonempty accumulated cloud: one
tracked cloud of label 4 merged at timestamp 0, transform set, no
callback. -/
def sampleStream : StreamManager :=
  { topicName := "lidar1"
    maxAge := 2
    cloud := [samplePoint]
    sensorTransform := some Transform.identity
    clouds := [sampleTrackedCloud]
    cloudsNotTransformed := []
    pointAgingCallback := none
    nextLabel := 5 }

/-- The stream fixture `sampleStream` with an aging callback registered. -/
def sampleAgedStream : StreamManager :=
  { sampleStream with pointAgingCallback := some 7 }

/-- A sample aggregation-manager fixture holding the single stream
`sampleStream` under the key `lidar1`. -/
def sampleManager : PointCloudsManager :=
  { maxAge := 2, streamManagers := [("lidar1", sampleStream)] }

/-- C1: merging a cloud of n points into an accumulated cloud of m points
via the stream-manager merge algorithm yields exactly m + n points for
every ICP oracle outcome; on non-convergence (and a non-empty accumulated
cloud) the new cloud is unioned unrefined — with the identity refinement —
rather than discarded, so ingestion never drops points. -/
theorem registerCloud_never_loses_points (icp : IcpOracle) (st : StreamManager)
    (spc : StampedPointCloud) :
    (registerCloud icp st spc).cloud.length = st.cloud.length + spc.points.length ∧
    (st.cloud ≠ [] → icp spc.points st.cloud = none →
      (registerCloud icp st spc).cloud = st.cloud ++ spc.points) := by
  constructor
  · unfold registerCloud
    by_cases h : st.cloud.isEmpty
    · rw [List.isEmpty_iff] at h
      simp [h]
    · simp only [h, Bool.false_eq_true, if_false]
      cases hicp : icp spc.points st.cloud <;>
        simp [List.length_append, List.length_map]
  · intro h1 h2
    unfold registerCloud
    rw [if_neg (by simpa [List.isEmpty_iff] using h1), h2]

/-- C1 witness: merging one concrete point into the one-point
`sampleStream` accumulated cloud under the never-converging oracle gives
1 + 1 points, via the unrefined union. -/
theorem registerCloud_never_loses_points_witness :
    (registerCloud icpNever sampleStream ⟨5, 1, [⟨7, 7, 7, 0, 0, 0, 5⟩], true⟩).cloud.length =
        sampleStream.cloud.length + 1 ∧
    (registerCloud icpNever sampleStream ⟨5, 1, [⟨7, 7, 7, 0, 0, 0, 5⟩], true⟩).cloud =
        sampleStream.cloud ++ [⟨7, 7, 7, 0, 0, 0, 5⟩] :=
  ⟨(registerCloud_never_loses_points icpNever sampleStream _).1,
   (registerCloud_never_loses_points icpNever sampleStream _).2
     (by simp [sampleStream]) rfl⟩

/-- C3: `applyTransform` succeeds at most once.  A first call on an
untransformed cloud maps the transform over every point and sets the
`transformed` flag; on an already-transformed cloud it fails with
`InvalidStateError`, returning no modified cloud; hence any call following
a successful one fails with `InvalidStateError`. -/
theorem applyTransform_exactly_once (tf tf2 : Transform) (spc spc2 : StampedPointCloud) :
    (spc.transformed = false →
      spc.applyTransform tf =
        .ok { spc with points := spc.points.map tf.applyPoint, transformed := true }) ∧
    (spc.transformed = true →
      spc.applyTransform tf = .error .invalidStateError) ∧
    (spc.applyTransform tf = .ok spc2 →
      spc2.applyTransform tf2 = .error .invalidStateError) := by
  refine ⟨fun h => ?_, fun h => ?_, fun h => ?_⟩
  · simp [StampedPointCloud.applyTransform, h]
  · simp [StampedPointCloud.applyTransform, h]
  · by_cases hT : spc.transformed
    · simp [StampedPointCloud.applyTransform, hT] at h
    · rw [Bool.not_eq_true] at hT
      simp only [StampedPointCloud.applyTransform, hT, Bool.false_eq_true, if_false,
        Except.ok.injEq] at h
      subst h
      rfl

/-- C3 witness: on the concrete untransformed cloud `sampleCloudRaw` the
first identity-transform application succeeds yielding `sampleCloudTf`,
and the second application fails with `InvalidStateError`. -/
theorem applyTransform_exactly_once_witness :
    sampleCloudRaw.transformed = false ∧
    sampleCloudRaw.applyTransform Transform.identity = .ok sampleCloudTf ∧
    sampleCloudTf.applyTransform Transform.identity = .error .invalidStateError :=
  ⟨rfl, rfl,
   (applyTransform_exactly_once Transform.identity Transform.identity
      sampleCloudRaw sampleCloudTf).2.2 rfl⟩

theorem registerCloud_sensorTransform (icp : IcpOracle) (st : StreamManager)
    (spc : StampedPointCloud) :
    (registerCloud icp st spc).sensorTransform = st.sensorTransform := by
  unfold registerCloud
  split
  · rfl
  · split <;> rfl

theorem registerCloud_cloudsNotTransformed (icp : IcpOracle) (st : StreamManager)
    (spc : StampedPointCloud) :
    (registerCloud icp st spc).cloudsNotTransformed = st.cloudsNotTransformed := by
  unfold registerCloud
  split
  · rfl
  · split <;> rfl

theorem ingestTransformed_sensorTransform (icp : IcpOracle) (tf : Transform)
    (st : StreamManager) (spc : StampedPointCloud) :
    (ingestTransformed icp tf st spc).sensorTransform = st.sensorTransform := by
  unfold ingestTransformed
  split
  · exact registerCloud_sensorTransform ..
  · rfl

theorem ingestTransformed_cloudsNotTransformed (icp : IcpOracle) (tf : Transform)
    (st : StreamManager) (spc : StampedPointCloud) :
    (ingestTransformed icp tf st spc).cloudsNotTransformed = st.cloudsNotTransformed := by
  unfold ingestTransformed
  split
  · exact registerCloud_cloudsNotTransformed ..
  · rfl

theorem foldl_ingest_sensorTransform (icp : IcpOracle) (tf : Transform)
    (l : List StampedPointCloud) (st : StreamManager) :
    (List.foldl (ingestTransformed icp tf) st l).sensorTransform = st.sensorTransform := by
  induction l generalizing st with
  | nil => rfl
  | cons c cs ih =>
      rw [List.foldl_cons, ih, ingestTransformed_sensorTransform]

theorem foldl_ingest_cloudsNotTransformed (icp : IcpOracle) (tf : Transform)
    (l : List StampedPointCloud) (st : StreamManager) :
    (List.foldl (ingestTransformed icp tf) st l).cloudsNotTransformed =
      st.cloudsNotTransformed := by
  induction l generalizing st with
  | nil => rfl
  | cons c cs ih =>
      rw [List.foldl_cons, ih, ingestTransformed_cloudsNotTransformed]

theorem setSensorTransform_stores (icp : IcpOracle) (tf : Transform) (st : StreamManager) :
    (setSensorTransform icp tf st).sensorTransform = some tf := by
  unfold setSensorTransform
  rw [foldl_ingest_sensorTransform]

theorem setSensorTransform_drains (icp : IcpOracle) (tf : Transform) (st : StreamManager) :
    (setSensorTransform icp tf st).cloudsNotTransformed = [] := by
  unfold setSensorTransform
  rw [foldl_ingest_cloudsNotTransformed]

theorem streamManager_update_self (st : StreamManager) (tf : Transform)
    (h1 : st.sensorTransform = some tf) (h2 : st.cloudsNotTransformed = []) :
    ({ st with sensorTransform := some tf, cloudsNotTransformed := [] } : StreamManager)
      = st := by
  cases st
  simp_all

/-- C4: with the sensor transform unset, `addCloud` appends the freshly
stamped cloud at the back of the pending queue and leaves `getCloud`
unchanged (its points are absent from the accumulated cloud); a later
`setSensorTransform` stores the transform and drains the pending queue in
FIFO insertion order through `ingestTransformed`, the very known-transform
path of `addCloud`, leaving the queue empty. -/
theorem addCloud_pending_and_drain (icp : IcpOracle) (now : ℚ) (raw : List RawPoint)
    (tf : Transform) (st : StreamManager)
    (hTf : st.sensorTransform = none) (hraw : raw ≠ []) :
    (addCloud icp now raw st).cloudsNotTransformed =
        st.cloudsNotTransformed ++ [mkStampedCloud st.nextLabel now raw] ∧
    getCloud (addCloud icp now raw st) = getCloud st ∧
    setSensorTransform icp tf st =
      List.foldl (ingestTransformed icp tf)
        { st with sensorTransform := some tf, cloudsNotTransformed := [] }
        st.cloudsNotTransformed ∧
    (setSensorTransform icp tf st).sensorTransform = some tf ∧
    (setSensorTransform icp tf st).cloudsNotTransformed = [] := by
  have hne : ¬ raw.isEmpty = true := by simpa [List.isEmpty_iff] using hraw
  refine ⟨?_, ?_, rfl, setSensorTransform_stores .., setSensorTransform_drains ..⟩
  · unfold addCloud
    rw [if_neg hne]
    simp [hTf]
  · unfold addCloud
    rw [if_neg hne]
    simp [getCloud, hTf]

/-- C4 witness: on a freshly constructed stream with no transform, one
concrete `addCloud` queues the stamped cloud and leaves the accumulated
cloud empty, and `setSensorTransform` stores the identity transform and
empties the queue. -/
theorem addCloud_pending_and_drain_witness :
    (addCloud icpNever 1 [⟨1, 2, 3, 0, 0, 0⟩] (initStream ("lidar1") 2)).cloudsNotTransformed =
        (initStream ("lidar1") 2).cloudsNotTransformed ++
          [mkStampedCloud (initStream ("lidar1") 2).nextLabel 1 [⟨1, 2, 3, 0, 0, 0⟩]] ∧
    getCloud (addCloud icpNever 1 [⟨1, 2, 3, 0, 0, 0⟩] (initStream ("lidar1") 2)) =
        getCloud (initStream ("lidar1") 2) ∧
    setSensorTransform icpNever Transform.identity (initStream ("lidar1") 2) =
      List.foldl (ingestTransformed icpNever Transform.identity)
        { initStream ("lidar1") 2 with
            sensorTransform := some Transform.identity, cloudsNotTransformed := [] }
        (initStream ("lidar1") 2).cloudsNotTransformed ∧
    (setSensorTransform icpNever Transform.identity (initStream ("lidar1") 2)).sensorTransform =
        some Transform.identity ∧
    (setSensorTransform icpNever Transform.identity
        (initStream ("lidar1") 2)).cloudsNotTransformed = [] :=
  addCloud_pending_and_drain icpNever 1 [⟨1, 2, 3, 0, 0, 0⟩] Transform.identity
    (initStream ("lidar1") 2) rfl (by simp)

/-- C8: `setSensorTransform` applied twice with the same transform is
idempotent — the second call returns exactly the state of the first call,
so no point the first call placed in the accumulated cloud is altered —
and the guard mechanism: a cloud whose `transformed` flag is true is never
re-transformed by the ingestion path. -/
theorem setSensorTransform_idempotent (icp : IcpOracle) (tf : Transform)
    (st st2 : StreamManager) (spc : StampedPointCloud) :
    setSensorTransform icp tf (setSensorTransform icp tf st) =
        setSensorTransform icp tf st ∧
    (spc.transformed = true → ingestTransformed icp tf st2 spc = st2) := by
  constructor
  · have h1 := setSensorTransform_stores icp tf st
    have h2 := setSensorTransform_drains icp tf st
    generalize hX : setSensorTransform icp tf st = X at h1 h2 ⊢
    unfold setSensorTransform
    rw [h2, List.foldl_nil]
    exact streamManager_update_self X tf h1 h2
  · intro h
    simp [ingestTransformed, StampedPointCloud.applyTransform, h]

/-- C8 witness: on the concrete drained stream obtained from one
`setSensorTransform` on a fresh stream, a second identical call returns
the same state; and the already-transformed `sampleCloudTf` passes through
the ingestion path of `sampleStream` unchanged. -/
theorem setSensorTransform_idempotent_witness :
    setSensorTransform icpNever Transform.identity
        (setSensorTransform icpNever Transform.identity (initStream ("cam1") 2)) =
      setSensorTransform icpNever Transform.identity (initStream ("cam1") 2) ∧
    ingestTransformed icpNever Transform.identity sampleStream sampleCloudTf =
      sampleStream :=
  ⟨(setSensorTransform_idempotent icpNever Transform.identity (initStream ("cam1") 2)
      sampleStream sampleCloudTf).1,
   (setSensorTransform_idempotent icpNever Transform.identity (initStream ("cam1") 2)
      sampleStream sampleCloudTf).2 rfl⟩

theorem aged_label_mem (now : ℚ) (st : StreamManager) (c : StampedPointCloud)
    (hc : c ∈ st.clouds) (hAge : c.olderThan st.maxAge now = true) :
    c.label ∈ (st.clouds.filter (fun d => d.olderThan st.maxAge now)).map
      (fun d => d.label) := by
  exact List.mem_map.mpr ⟨c, List.mem_filter.mpr ⟨hc, hAge⟩, rfl⟩

theorem watch_removes_labeled_points (now : ℚ) (st : StreamManager)
    (c : StampedPointCloud) (hc : c ∈ st.clouds)
    (hAge : c.olderThan st.maxAge now = true) :
    ∀ p ∈ (maxAgeWatchingRoutine now st).1.cloud, p.label ≠ c.label := by
  intro p hp hEq
  unfold maxAgeWatchingRoutine at hp
  simp only [List.mem_filter] at hp
  have h2 : p.label ∉ (st.clouds.filter (fun d => d.olderThan st.maxAge now)).map
      (fun d => d.label) := by
    simpa using hp.2
  exact h2 (by rw [hEq]; exact aged_label_mem now st c hc hAge)

theorem watch_removes_tracked_entry (now : ℚ) (st : StreamManager)
    (c : StampedPointCloud) (hAge : c.olderThan st.maxAge now = true) :
    c ∉ (maxAgeWatchingRoutine now st).1.clouds := by
  intro hc
  unfold maxAgeWatchingRoutine at hc
  simp only [List.mem_filter, Bool.not_eq_true] at hc
  rw [hAge] at hc
  exact absurd hc.2 (by simp)

theorem watch_keeps_unaged_points (now : ℚ) (st : StreamManager) :
    ∀ p ∈ st.cloud,
      (∀ d ∈ st.clouds, d.olderThan st.maxAge now = true → p.label ≠ d.label) →
      p ∈ (maxAgeWatchingRoutine now st).1.cloud := by
  intro p hp hkeep
  unfold maxAgeWatchingRoutine
  simp only [List.mem_filter]
  refine ⟨hp, ?_⟩
  have h2 : p.label ∉ (st.clouds.filter (fun d => d.olderThan st.maxAge now)).map
      (fun d => d.label) := by
    intro hmem
    obtain ⟨d, hd, hlab⟩ := List.mem_map.mp hmem
    exact hkeep d (List.mem_filter.mp hd).1 (List.mem_filter.mp hd).2 hlab.symm
  simpa using h2

theorem watch_invokes_callback (now : ℚ) (st : StreamManager) (func : Nat)
    (hCb : st.pointAgingCallback = some func) :
    (maxAgeWatchingRoutine now st).2 =
      (st.clouds.filter (fun d => d.olderThan st.maxAge now)).map (fun d => d.label) := by
  unfold maxAgeWatchingRoutine
  rw [hCb]

theorem watch_no_callback (now : ℚ) (st : StreamManager)
    (hCb : st.pointAgingCallback = none) :
    (maxAgeWatchingRoutine now st).2 = [] := by
  unfold maxAgeWatchingRoutine
  rw [hCb]

theorem spcLt_iff (a c : StampedPointCloud) :
    spcLt a c = true ↔
      a.timestamp < c.timestamp ∨ (a.timestamp = c.timestamp ∧ a.label < c.label) := by
  unfold spcLt
  split_ifs with h1 h2
  · simp [h1]
  · constructor
    · intro h
      exact absurd h (by simp)
    · rintro (h | ⟨hEq, _⟩)
      · exact absurd h h1
      · exact absurd hEq (ne_of_gt h2)
  · have hEq : a.timestamp = c.timestamp := le_antisymm (not_lt.mp h2) (not_lt.mp h1)
    simp [h1, hEq]

theorem spcLt_trans {a c d : StampedPointCloud}
    (h1 : spcLt a c = true) (h2 : spcLt c d = true) : spcLt a d = true := by
  rw [spcLt_iff] at h1 h2 ⊢
  rcases h1 with h1 | ⟨h1e, h1l⟩ <;> rcases h2 with h2 | ⟨h2e, h2l⟩
  · exact Or.inl (lt_trans h1 h2)
  · exact Or.inl (h2e ▸ h1)
  · exact Or.inl (h1e ▸ h2)
  · exact Or.inr ⟨h1e.trans h2e, Nat.lt_trans h1l h2l⟩

theorem mem_insertTracked {c x : StampedPointCloud} {l : List StampedPointCloud}
    (hx : x ∈ insertTracked c l) : x = c ∨ x ∈ l := by
  induction l with
  | nil =>
      simp only [insertTracked, List.mem_singleton] at hx
      exact Or.inl hx
  | cons a as ih =>
      unfold insertTracked at hx
      split_ifs at hx
      · rcases List.mem_cons.mp hx with h | h
        · exact Or.inl h
        · exact Or.inr h
      · rcases List.mem_cons.mp hx with h | h
        · subst h
          exact Or.inr (List.mem_cons_self x as)
        · rcases ih h with h2 | h2
          · exact Or.inl h2
          · exact Or.inr (List.mem_cons.mpr (Or.inr h2))
      · exact Or.inr hx

theorem pairwise_insertTracked {c : StampedPointCloud} {l : List StampedPointCloud}
    (hl : List.Pairwise (fun a d => spcLt a d = true) l) :
    List.Pairwise (fun a d => spcLt a d = true) (insertTracked c l) := by
  induction l with
  | nil => simp [insertTracked]
  | cons a as ih =>
      unfold insertTracked
      rcases List.pairwise_cons.mp hl with ⟨ha, has⟩
      split_ifs with h1 h2
      · refine List.pairwise_cons.mpr ⟨?_, hl⟩
        intro y hy
        rcases List.mem_cons.mp hy with h | h
        · exact h ▸ h1
        · exact spcLt_trans h1 (ha y h)
      · refine List.pairwise_cons.mpr ⟨?_, ih has⟩
        intro y hy
        rcases mem_insertTracked hy with h | h
        · exact h ▸ h2
        · exact ha y h
      · exact hl

theorem registerCloud_pairwise (icp : IcpOracle) (st : StreamManager)
    (spc : StampedPointCloud)
    (h : List.Pairwise (fun a d => spcLt a d = true) st.clouds) :
    List.Pairwise (fun a d => spcLt a d = true) (registerCloud icp st spc).clouds := by
  unfold registerCloud
  split
  · exact pairwise_insertTracked h
  · split <;> exact pairwise_insertTracked h

theorem ingestTransformed_pairwise (icp : IcpOracle) (tf : Transform)
    (st : StreamManager) (spc : StampedPointCloud)
    (h : List.Pairwise (fun a d => spcLt a d = true) st.clouds) :
    List.Pairwise (fun a d => spcLt a d = true) (ingestTransformed icp tf st spc).clouds := by
  unfold ingestTransformed
  split
  · exact registerCloud_pairwise _ _ _ h
  · exact h

theorem foldl_ingest_pairwise (icp : IcpOracle) (tf : Transform)
    (l : List StampedPointCloud) (st : StreamManager)
    (h : List.Pairwise (fun a d => spcLt a d = true) st.clouds) :
    List.Pairwise (fun a d => spcLt a d = true)
      (List.foldl (ingestTransformed icp tf) st l).clouds := by
  induction l generalizing st with
  | nil => exact h
  | cons x xs ih =>
      rw [List.foldl_cons]
      exact ih _ (ingestTransformed_pairwise icp tf st x h)

theorem addCloud_pairwise (icp : IcpOracle) (now : ℚ) (raw : List RawPoint)
    (st : StreamManager)
    (h : List.Pairwise (fun a d => spcLt a d = true) st.clouds) :
    List.Pairwise (fun a d => spcLt a d = true) (addCloud icp now raw st).clouds := by
  unfold addCloud
  split
  · exact h
  · dsimp only
    cases hTf : st.sensorTransform with
    | some tf => exact ingestTransformed_pairwise _ _ _ _ h
    | none => exact h

/-- C7: the tracked set is strictly ascending in `(timestamp, label)` —
label breaking timestamp ties — in every reachable stream-manager state,
every public operation preserving the ordering; and two clouds of equal
timestamp and distinct labels are both retained by insertion, ordered by
label. -/
theorem tracked_ordering_invariant :
    (∀ st : StreamManager, Reachable st →
      List.Pairwise (fun a d => spcLt a d = true) st.clouds) ∧
    (∀ c d : StampedPointCloud, c.timestamp = d.timestamp → c.label < d.label →
      insertTracked d [c] = [c, d] ∧ insertTracked c [d] = [c, d]) := by
  constructor
  · intro st h
    induction h with
    | init name age => exact List.Pairwise.nil
    | add icp now raw _ ih => exact addCloud_pairwise icp now raw _ ih
    | setTf icp tf _ ih =>
        unfold setSensorTransform
        exact foldl_ingest_pairwise icp tf _ _ ih
    | watch now _ ih =>
        unfold maxAgeWatchingRoutine
        exact ih.filter _
    | setCb func _ ih => exact ih
  · intro c d hts hlab
    have hcd : spcLt c d = true := (spcLt_iff c d).mpr (Or.inr ⟨hts, hlab⟩)
    have hdc : spcLt d c = false := by
      rw [← Bool.not_eq_true, spcLt_iff]
      rintro (h | ⟨_, h⟩)
      · exact absurd (hts ▸ h) (lt_irrefl _)
      · exact Nat.lt_asymm hlab h
    constructor
    · show (if spcLt d c = true then _ else if spcLt c d = true then _ else _) = _
      rw [hdc, hcd]
      simp [insertTracked]
    · show (if spcLt c d = true then _ else _) = _
      rw [hcd]
      simp

/-- C7 witness: the tracked set of a concrete reachable state (one
`addCloud` on a fresh stream with the transform set) is sorted, and two
concrete clouds with equal timestamp 5 and labels 0 and 1 are both
retained by insertion in label order. -/
theorem tracked_ordering_invariant_witness :
    List.Pairwise (fun a d => spcLt a d = true)
      (addCloud icpNever 1 [⟨1, 2, 3, 0, 0, 0⟩] (initStream ("w7") 2)).clouds ∧
    insertTracked ⟨1, 5, [], true⟩ [⟨0, 5, [], true⟩] =
      [⟨0, 5, [], true⟩, ⟨1, 5, [], true⟩] :=
  ⟨tracked_ordering_invariant.1 _
      (Reachable.add icpNever 1 [⟨1, 2, 3, 0, 0, 0⟩] (Reachable.init ("w7") 2)),
   (tracked_ordering_invariant.2 ⟨0, 5, [], true⟩ ⟨1, 5, [], true⟩ rfl
      (by decide)).1⟩

/-- C9 counterexample: the refinement claim asserts the template-generic
variant omits equality by source identifier, but the generic header also
declares `operator==` (equality among the shared declarations, not among
the fixed-type variant's additions). -/
theorem genericVariant_declares_equality :
    StreamManagerMember.eqBySourceId ∈ genericVariantMembers ∧
    StreamManagerMember.eqBySourceId ∈ fixedVariantMembers ∧
    StreamManagerMember.eqBySourceId ∉ callbackAndWatcherMembers := by
  decide

/-- C9 amended: both header variants declare the shared public operations
`addCloud`, `getCloud`, `setSensorTransform`, `getMaxAge` and equality by
source identifier, under the same ICP configuration constants (maximum
correspondence distance 1, maximum iteration count 10); the fixed-type
variant differs only by additionally declaring the aging callback (member
plus `getPointAgingCallback`/`setPointAgingCallback`) and the age-watcher
thread machinery (thread member, liveness flag, watching routine), none of
which the generic variant declares. -/
theorem streamManager_variants_interface :
    genericIcpMaxCorrespondenceDistance = fixedIcpMaxCorrespondenceDistance ∧
    genericIcpMaxIterations = fixedIcpMaxIterations ∧
    genericIcpMaxCorrespondenceDistance = 1 ∧
    genericIcpMaxIterations = 10 ∧
    (∀ m ∈ sharedPublicOps, m ∈ fixedVariantMembers ∧ m ∈ genericVariantMembers) ∧
    StreamManagerMember.eqBySourceId ∈ genericVariantMembers ∧
    (∀ m ∈ fixedVariantMembers,
      m ∈ genericVariantMembers ∨ m ∈ callbackAndWatcherMembers) ∧
    (∀ m ∈ genericVariantMembers, m ∈ fixedVariantMembers) ∧
    (∀ m ∈ callbackAndWatcherMembers,
      m ∈ fixedVariantMembers ∧ m ∉ genericVariantMembers) := by
  decide

/-- C9 amended-claim witness: the shared operation `addCloud` is declared
by both variants, and the callback getter is a fixed-type-only addition. -/
theorem streamManager_variants_interface_witness :
    (StreamManagerMember.addCloudMethod ∈ fixedVariantMembers ∧
      StreamManagerMember.addCloudMethod ∈ genericVariantMembers) ∧
    (StreamManagerMember.getPointAgingCallbackMethod ∈ fixedVariantMembers ∧
      StreamManagerMember.getPointAgingCallbackMethod ∉ genericVariantMembers) :=
  ⟨streamManager_variants_interface.2.2.2.2.1 StreamManagerMember.addCloudMethod
      (by decide),
   streamManager_variants_interface.2.2.2.2.2.2.2.2
      StreamManagerMember.getPointAgingCallbackMethod (by decide)⟩

/-- C2: once `now - timestamp > maxAge` holds for a tracked cloud, the
eviction pass removes exactly the points bearing that cloud's label from
the accumulated cloud (no point with that label survives, and every point
whose label belongs to no aged cloud is kept), removes the cloud's entry
from the tracked set, and invokes the registered aging callback with that
label. -/
theorem eviction_evicts_aged_cloud (now : ℚ) (st : StreamManager)
    (c : StampedPointCloud) (func : Nat)
    (hc : c ∈ st.clouds) (hAge : now - c.timestamp > st.maxAge)
    (hCb : st.pointAgingCallback = some func) :
    (∀ p ∈ (maxAgeWatchingRoutine now st).1.cloud, p.label ≠ c.label) ∧
    c ∉ (maxAgeWatchingRoutine now st).1.clouds ∧
    c.label ∈ (maxAgeWatchingRoutine now st).2 ∧
    (∀ p ∈ st.cloud,
      (∀ d ∈ st.clouds, d.olderThan st.maxAge now = true → p.label ≠ d.label) →
      p ∈ (maxAgeWatchingRoutine now st).1.cloud) := by
  have hA : c.olderThan st.maxAge now = true := by
    simpa [StampedPointCloud.olderThan] using hAge
  refine ⟨watch_removes_labeled_points now st c hc hA,
    watch_removes_tracked_entry now st c hA, ?_,
    watch_keeps_unaged_points now st⟩
  rw [watch_invokes_callback now st func hCb]
  exact aged_label_mem now st c hc hA

/-- C2 witness: on the concrete stream `sampleAgedStream` (max age 2,
callback 7 registered, one cloud of label 4 stamped at time 0), the
eviction pass at time 3 removes label 4 from the accumulated cloud and the
tracked set and reports label 4 to the callback. -/
theorem eviction_evicts_aged_cloud_witness :
    (∀ p ∈ (maxAgeWatchingRoutine 3 sampleAgedStream).1.cloud,
        p.label ≠ sampleTrackedCloud.label) ∧
    sampleTrackedCloud ∉ (maxAgeWatchingRoutine 3 sampleAgedStream).1.clouds ∧
    sampleTrackedCloud.label ∈ (maxAgeWatchingRoutine 3 sampleAgedStream).2 ∧
    (∀ p ∈ sampleAgedStream.cloud,
      (∀ d ∈ sampleAgedStream.clouds,
        d.olderThan sampleAgedStream.maxAge 3 = true → p.label ≠ d.label) →
      p ∈ (maxAgeWatchingRoutine 3 sampleAgedStream).1.cloud) :=
  eviction_evicts_aged_cloud 3 sampleAgedStream sampleTrackedCloud 7
    (by simp [sampleAgedStream, sampleStream])
    (by norm_num [sampleAgedStream, sampleStream, sampleTrackedCloud]) rfl

/-- C10: a freshly constructed stream manager has a null aging callback
and `getPointAgingCallback` returns that null value; and with a null
callback the eviction pass still removes an aged cloud's labeled points
from the accumulated cloud and its entry from the tracked set, invoking
nothing — the pass is total, it cannot fail for lack of a listener. -/
theorem null_callback_eviction_safe (name : String) (age now : ℚ)
    (st : StreamManager) (c : StampedPointCloud)
    (hCb : st.pointAgingCallback = none)
    (hc : c ∈ st.clouds) (hAge : now - c.timestamp > st.maxAge) :
    getPointAgingCallback (initStream name age) = none ∧
    (maxAgeWatchingRoutine now st).2 = [] ∧
    (∀ p ∈ (maxAgeWatchingRoutine now st).1.cloud, p.label ≠ c.label) ∧
    c ∉ (maxAgeWatchingRoutine now st).1.clouds := by
  have hA : c.olderThan st.maxAge now = true := by
    simpa [StampedPointCloud.olderThan] using hAge
  exact ⟨rfl, watch_no_callback now st hCb,
    watch_removes_labeled_points now st c hc hA,
    watch_removes_tracked_entry now st c hA⟩

/-- C10 witness: on the concrete callback-free stream `sampleStream` the
eviction pass at time 3 removes the aged label-4 cloud while invoking no
callback, and a fresh stream's callback reads back null. -/
theorem null_callback_eviction_safe_witness :
    getPointAgingCallback (initStream ("cam2") 1) = none ∧
    (maxAgeWatchingRoutine 3 sampleStream).2 = [] ∧
    (∀ p ∈ (maxAgeWatchingRoutine 3 sampleStream).1.cloud,
        p.label ≠ sampleTrackedCloud.label) ∧
    sampleTrackedCloud ∉ (maxAgeWatchingRoutine 3 sampleStream).1.clouds :=
  null_callback_eviction_safe ("cam2") 1 3 sampleStream sampleTrackedCloud rfl
    (by simp [sampleStream])
    (by norm_num [sampleStream, sampleTrackedCloud])

/-- C5: the aggregation manager's merged cloud is exactly the union, in
registry order, of every registered stream manager's current `getCloud`
result, and its point count is the sum of the streams' current point
counts — no cross-stream deduplication. -/
theorem getMergedCloud_union_of_streams (mgr : PointCloudsManager) :
    getMergedCloud mgr = (mgr.streamManagers.map (fun p => getCloud p.2)).flatten ∧
    (getMergedCloud mgr).length =
      (mgr.streamManagers.map (fun p => (getCloud p.2).length)).sum := by
  refine ⟨rfl, ?_⟩
  simp [getMergedCloud, Function.comp_def]

/-- C6: setting the sensor transform for an unregistered source identifier
fails with `NotFoundError`; the error is the synchronous result, so no
stream manager is created and no stream state is modified. -/
theorem mgrSetSensorTransform_not_found (icp : IcpOracle) (sourceId : String)
    (tf : Transform) (mgr : PointCloudsManager)
    (h : ∀ p ∈ mgr.streamManagers, p.1 ≠ sourceId) :
    mgrSetSensorTransform icp sourceId tf mgr = .error .notFoundError := by
  unfold mgrSetSensorTransform
  rw [if_neg]
  intro hAny
  rw [List.any_eq_true] at hAny
  obtain ⟨p, hp, hEq⟩ := hAny
  exact h p hp (by simpa using hEq)

/-- C6 witness: on the concrete one-stream manager `sampleManager`, a
transform-set for the unregistered identifier `unknown` fails with
`NotFoundError`. -/
theorem mgrSetSensorTransform_not_found_witness :
    mgrSetSensorTransform icpNever ("unknown") Transform.identity sampleManager =
      .error .notFoundError :=
  mgrSetSensorTransform_not_found icpNever ("unknown") Transform.identity sampleManager
    (by decide)
